import Mathlib

/-!
Shallow embedding of the casa-kumis-backend submission intake service.

The repository holds three near-duplicate variants of one Express server
(the three sections of src/server.js).  Each handler is embedded as a pure
Lean function from the request data, the ambient configuration and a
description of how the external services behave on this request (a World)
to the HTTP status, the sequence of external calls attempted, and, for the
variants whose table rows are observable, the new table contents.

Variant 1 is the first section of the file (ESM, rate limiter, field
validation, derived upload names, UUID ids).  Variant 2 is the second
section (no field validation, attachment required on formulario, original
file names, CSV export).  Variant 3 is the third section (no validation,
optional attachment, original file names, AUTOINCREMENT ids, CSV export).
-/

namespace CasaKumis

/-- JS truthiness of an optional form field: an absent field and the empty
string are falsy, every other string is truthy. -/
def truthy : Option String → Bool
  | none => false
  | some s => s != ""

/-- JS expression a || b on optional strings: keep a when it is truthy,
otherwise take b. -/
def jsOr : Option String → Option String → Option String
  | some s, b => if s = "" then b else some s
  | none, b => b

/-- JS expression a || d with a string default: the default replaces an
absent or empty value. -/
def jsOrD (a : Option String) (d : String) : String :=
  match a with
  | some s => if s = "" then d else s
  | none => d

/-- JS template interpolation of a possibly-undefined value: an absent
field prints as the literal text undefined. -/
def jsStr (a : Option String) : String := a.getD "undefined"

/-- Characters matched by the whitespace regex class in the source
sanitizer. -/
def isJsWs (c : Char) : Bool :=
  c = ' ' || c = '\t' || c = '\n' || c = '\r' || c = '\x0b' || c = '\x0c'

/-- Core of the sanitizer: walk the characters, emitting one underscore at
the start of each whitespace run and dropping the rest of the run. -/
def squeezeWs : List Char → Bool → List Char
  | [], _ => []
  | c :: cs, inRun =>
    if isJsWs c then
      if inRun then squeezeWs cs true else '_' :: squeezeWs cs true
    else c :: squeezeWs cs false

/-- Embedding of nombre.replace of every whitespace run by one underscore,
as in the safeName computation of variant 1. -/
def sanitizeName (s : String) : String := String.mk (squeezeWs s.data false)

/-- A value bound into a parameterized SQL statement: a string or NULL. -/
inductive SqlVal
  | s (v : String)
  | null
deriving DecidableEq, Repr

/-- Lift an optional string into a SQL argument (absent becomes NULL). -/
def optSql : Option String → SqlVal
  | some v => SqlVal.s v
  | none => SqlVal.null

/-- One attempted call to an external collaborator, in program order. -/
inductive Call
  | driveCreate (name : String) (mimeType : String) (parents : List (Option String))
  | driveUpdate (fileId : String) (folder : Option String)
  | drivePerm (fileId : String)
  | dbInsert (table : String) (args : List SqlVal)
  | mail (subject : String)
deriving DecidableEq, Repr

/-- Whether a call goes to the Object Storage Gateway. -/
def Call.isDrive : Call → Bool
  | driveCreate _ _ _ => true
  | driveUpdate _ _ => true
  | drivePerm _ => true
  | _ => false

/-- Whether a call is a Durable Record Store insert. -/
def Call.isInsert : Call → Bool
  | dbInsert _ _ => true
  | _ => false

/-- Whether a call is a Notifier send. -/
def Call.isMail : Call → Bool
  | mail _ => true
  | _ => false

/-- Behavior of the external services on one request: whether each awaited
external call succeeds, plus the identifiers the services hand back. -/
structure World where
  createOk : Bool
  updateOk : Bool
  permOk : Bool
  insertOk : Bool
  mailOk : Bool
  fileId : String
  uuid : String
deriving Repr

/-- The environment variables the handlers read. -/
structure Env where
  googleFolderId : Option String
  googleFolderQuejasId : Option String
  emailTo : Option String
  emailCc : Option String
deriving Repr

/-- The request metadata the handlers read outside the form body. -/
structure Req where
  xff : Option String
  remoteAddress : Option String
  userAgent : Option String
deriving Repr

/-- Client address as computed in the variant 1 handlers: first entry of
the forwarded-for header, else the socket address, else null. -/
def clientIp (r : Req) : Option String :=
  jsOr (r.xff.map (fun s => (s.splitOn ",").headD "")) r.remoteAddress

/-- An uploaded multipart file as multer presents it. -/
structure FileUpload where
  buffer : Option (List Nat)
  originalname : String
  mimetype : String
deriving Repr

/-- Body of a formulario (job application) post. -/
structure FormBody where
  nombre : Option String
  email : Option String
  telefono : Option String
  cargo : Option String
  mensaje : Option String
deriving Repr

/-- Body of a quejas (complaint) post. -/
structure QuejaBody where
  nombre : Option String
  email : Option String
  telefono : Option String
  sucursal : Option String
  asunto : Option String
  mensaje : Option String
deriving Repr

/-- Public URL derived from a storage object id. -/
def driveUrl (fid : String) : String :=
  "https://drive.google.com/file/d/" ++ fid ++ "/view"

/-- Result of the variant 1 uploadToDrive helper when it returns. -/
structure UpRes where
  id : Option String
  url : Option String
deriving DecidableEq, Repr

/-- Variant 1 uploadToDrive: short-circuit on a missing buffer, create the
object (with a parent folder), grant public read, derive the URL.  The
first component is none when a storage call throws; the second lists the
calls attempted. -/
def uploadToDrive (w : World) (buffer : Option (List Nat)) (filename : String)
    (mimetype : String) (parentFolderId : Option String) :
    Option UpRes × List Call :=
  match buffer with
  | none => (some ⟨none, none⟩, [])
  | some _ =>
    let c1 := Call.driveCreate filename mimetype [parentFolderId]
    if !w.createOk then (none, [c1])
    else
      let c2 := Call.drivePerm w.fileId
      if !w.permOk then (none, [c1, c2])
      else (some ⟨some w.fileId, some (driveUrl w.fileId)⟩, [c1, c2])

/-- Outcome of a variant 1 handler: response status and calls attempted. -/
structure HRes where
  status : Nat
  calls : List Call
deriving DecidableEq, Repr

/-- Variant 1 POST api formulario: validate the four required fields,
optionally upload under the derived HV name, insert a UUID row into
postulaciones, send the notification mail; any throw inside the try block
yields 500. -/
def formularioV1 (w : World) (env : Env) (r : Req) (b : FormBody)
    (file : Option FileUpload) (now : Nat) : HRes :=
  if !(truthy b.nombre && truthy b.email && truthy b.telefono && truthy b.cargo) then
    { status := 400, calls := [] }
  else
    let nombre := b.nombre.getD ""
    let email := b.email.getD ""
    let telefono := b.telefono.getD ""
    let cargo := b.cargo.getD ""
    let mensaje := b.mensaje.getD ""
    let upload :=
      match file with
      | none => ((some ⟨none, none⟩ : Option UpRes), ([] : List Call))
      | some f =>
        let safeName := "HV_" ++ sanitizeName nombre ++ "_" ++ toString now
        uploadToDrive w f.buffer safeName f.mimetype env.googleFolderId
    match upload with
    | (none, cs) => { status := 500, calls := cs }
    | (some up, cs) =>
      let args := [SqlVal.s w.uuid, SqlVal.s nombre, SqlVal.s email,
        SqlVal.s telefono, SqlVal.s cargo, SqlVal.s mensaje,
        optSql up.id, optSql up.url, optSql (clientIp r), optSql r.userAgent]
      let ci := Call.dbInsert "postulaciones" args
      if !w.insertOk then { status := 500, calls := cs ++ [ci] }
      else
        let cm := Call.mail ("Nueva postulación: " ++ nombre ++ " • " ++ cargo)
        if !w.mailOk then { status := 500, calls := cs ++ [ci, cm] }
        else { status := 200, calls := cs ++ [ci, cm] }

/-- Variant 1 POST api quejas: validate the six required fields, optionally
upload under the derived QUEJA name into the complaints folder (falling
back to the shared folder), insert into quejas, notify. -/
def quejasV1 (w : World) (env : Env) (r : Req) (b : QuejaBody)
    (file : Option FileUpload) (now : Nat) : HRes :=
  if !(truthy b.nombre && truthy b.email && truthy b.telefono &&
      truthy b.sucursal && truthy b.asunto && truthy b.mensaje) then
    { status := 400, calls := [] }
  else
    let nombre := b.nombre.getD ""
    let email := b.email.getD ""
    let telefono := b.telefono.getD ""
    let sucursal := b.sucursal.getD ""
    let asunto := b.asunto.getD ""
    let mensaje := b.mensaje.getD ""
    let parentFolderId := jsOr env.googleFolderQuejasId env.googleFolderId
    let upload :=
      match file with
      | none => ((some ⟨none, none⟩ : Option UpRes), ([] : List Call))
      | some f =>
        let safeName := "QUEJA_" ++ sanitizeName nombre ++ "_" ++ toString now
        uploadToDrive w f.buffer safeName f.mimetype parentFolderId
    match upload with
    | (none, cs) => { status := 500, calls := cs }
    | (some up, cs) =>
      let args := [SqlVal.s w.uuid, SqlVal.s nombre, SqlVal.s email,
        SqlVal.s telefono, SqlVal.s sucursal, SqlVal.s asunto, SqlVal.s mensaje,
        optSql up.id, optSql up.url, optSql (clientIp r), optSql r.userAgent]
      let ci := Call.dbInsert "quejas" args
      if !w.insertOk then { status := 500, calls := cs ++ [ci] }
      else
        let cm := Call.mail ("Nuevo mensaje (" ++ asunto ++ ") de " ++ nombre)
        if !w.mailOk then { status := 500, calls := cs ++ [ci, cm] }
        else { status := 200, calls := cs ++ [ci, cm] }

/-- A row of the postulaciones table in the variant 2 and 3 schema, with
the AUTOINCREMENT id the store assigns.  Fields bound from a destructured
body may be absent (stored as NULL); mensaje, archivo_url and fecha_envio
are always bound to strings by the handlers. -/
structure RowP where
  id : Nat
  nombre : Option String
  email : Option String
  telefono : Option String
  cargo : Option String
  mensaje : String
  archivo_url : String
  fecha_envio : String
deriving DecidableEq, Repr

/-- A row of the quejas table in the variant 2 and 3 schema. -/
structure RowQ where
  id : Nat
  nombre : Option String
  email : Option String
  telefono : Option String
  sucursal : Option String
  asunto : Option String
  mensaje : String
  archivo_url : String
  fecha_envio : String
deriving DecidableEq, Repr

/-- AUTOINCREMENT id assignment: one more than the largest id used. -/
def nextId (ids : List Nat) : Nat := ids.foldr max 0 + 1

/-- Next postulaciones id for a given table content. -/
def nextIdP (store : List RowP) : Nat := nextId (store.map RowP.id)

/-- Next quejas id for a given table content. -/
def nextIdQ (store : List RowQ) : Nat := nextId (store.map RowQ.id)

/-- Outcome of a handler whose table is observable: response status, calls
attempted, and the postulaciones table afterward. -/
structure SRes where
  status : Nat
  calls : List Call
  store : List RowP
deriving DecidableEq, Repr

/-- Outcome of a quejas handler of variant 3: status, calls, table. -/
structure QRes where
  status : Nat
  calls : List Call
  store : List RowQ
deriving DecidableEq, Repr

/-- Variant 2 POST api formulario: no field validation, the attachment is
required (400 without it), the object is created under the original file
name, then moved to the shared folder and made public; insert and mail are
awaited inside the same try block.  The destructured fields are bound into
the insert unguarded (only mensaje has an or-empty default), and the
database client rejects an undefined argument with a thrown TypeError
before contacting the store, so an absent field makes the execute call
throw: status 500, no insert reaches the store, no mail. -/
def formularioV2 (w : World) (env : Env) (b : FormBody) (file : Option FileUpload)
    (store : List RowP) (fecha : String) : SRes :=
  match file with
  | none => { status := 400, calls := [], store := store }
  | some archivo =>
    let c1 := Call.driveCreate archivo.originalname archivo.mimetype []
    if !w.createOk then { status := 500, calls := [c1], store := store }
    else
      let c2 := Call.driveUpdate w.fileId env.googleFolderId
      if !w.updateOk then { status := 500, calls := [c1, c2], store := store }
      else
        let c3 := Call.drivePerm w.fileId
        if !w.permOk then { status := 500, calls := [c1, c2, c3], store := store }
        else if b.nombre.isNone || b.email.isNone || b.telefono.isNone ||
            b.cargo.isNone then
          { status := 500, calls := [c1, c2, c3], store := store }
        else
          let fileUrl := driveUrl w.fileId
          let row : RowP :=
            { id := nextIdP store, nombre := b.nombre, email := b.email,
              telefono := b.telefono, cargo := b.cargo,
              mensaje := jsOrD b.mensaje "", archivo_url := fileUrl,
              fecha_envio := fecha }
          let ci := Call.dbInsert "postulaciones"
            [optSql b.nombre, optSql b.email, optSql b.telefono, optSql b.cargo,
             SqlVal.s (jsOrD b.mensaje ""), SqlVal.s fileUrl, SqlVal.s fecha]
          if !w.insertOk then
            { status := 500, calls := [c1, c2, c3, ci], store := store }
          else
            let cm := Call.mail ("📩 Nueva postulación - " ++ jsStr b.nombre)
            if !w.mailOk then
              { status := 500, calls := [c1, c2, c3, ci, cm], store := store ++ [row] }
            else
              { status := 200, calls := [c1, c2, c3, ci, cm], store := store ++ [row] }

/-- Variant 3 helper subirAStorageDrive: create under the original name,
move to the folder when a folder id is configured, grant public read,
return the public URL; none when a storage call throws. -/
def subirAStorageDrive (w : World) (originalname : String) (mimetype : String)
    (folderId : Option String) : Option String × List Call :=
  let c1 := Call.driveCreate originalname mimetype []
  if !w.createOk then (none, [c1])
  else if truthy folderId then
    let c2 := Call.driveUpdate w.fileId folderId
    if !w.updateOk then (none, [c1, c2])
    else
      let c3 := Call.drivePerm w.fileId
      if !w.permOk then (none, [c1, c2, c3])
      else (some (driveUrl w.fileId), [c1, c2, c3])
  else
    let c3 := Call.drivePerm w.fileId
    if !w.permOk then (none, [c1, c3])
    else (some (driveUrl w.fileId), [c1, c3])

/-- Variant 3 POST api formulario: no validation, optional attachment
(empty URL without one), AUTOINCREMENT insert, mail only when a recipient
is configured, all awaited inside one try block.  The destructured fields
are bound into the insert unguarded (only mensaje has an or-empty
default); the database client rejects an undefined argument with a thrown
TypeError before contacting the store, so an absent field makes the
execute call throw: status 500, no row, no mail. -/
def formularioV3 (w : World) (env : Env) (b : FormBody) (file : Option FileUpload)
    (store : List RowP) (fecha : String) : SRes :=
  let upload :=
    match file with
    | none => ((some "" : Option String), ([] : List Call))
    | some f => subirAStorageDrive w f.originalname f.mimetype env.googleFolderId
  match upload with
  | (none, cs) => { status := 500, calls := cs, store := store }
  | (some fileUrl, cs) =>
    if b.nombre.isNone || b.email.isNone || b.telefono.isNone ||
        b.cargo.isNone then
      { status := 500, calls := cs, store := store }
    else
    let row : RowP :=
      { id := nextIdP store, nombre := b.nombre, email := b.email,
        telefono := b.telefono, cargo := b.cargo,
        mensaje := jsOrD b.mensaje "", archivo_url := fileUrl,
        fecha_envio := fecha }
    let ci := Call.dbInsert "postulaciones"
      [optSql b.nombre, optSql b.email, optSql b.telefono, optSql b.cargo,
       SqlVal.s (jsOrD b.mensaje ""), SqlVal.s fileUrl, SqlVal.s fecha]
    if !w.insertOk then { status := 500, calls := cs ++ [ci], store := store }
    else if truthy env.emailTo then
      let cm := Call.mail ("📩 Nueva postulación - " ++ jsOrD b.nombre "Sin nombre")
      if !w.mailOk then
        { status := 500, calls := cs ++ [ci, cm], store := store ++ [row] }
      else
        { status := 200, calls := cs ++ [ci, cm], store := store ++ [row] }
    else { status := 200, calls := cs ++ [ci], store := store ++ [row] }

/-- Variant 3 POST api quejas: no validation, optional attachment into the
complaints folder (falling back to the shared folder), AUTOINCREMENT
insert, conditional mail, all inside one try block.  The five destructured
fields other than mensaje are bound into the insert unguarded; the
database client rejects an undefined argument with a thrown TypeError
before contacting the store, so an absent field makes the execute call
throw: status 500, no row, no mail. -/
def quejasV3 (w : World) (env : Env) (b : QuejaBody) (file : Option FileUpload)
    (store : List RowQ) (fecha : String) : QRes :=
  let folderQuejas := jsOr env.googleFolderQuejasId env.googleFolderId
  let upload :=
    match file with
    | none => ((some "" : Option String), ([] : List Call))
    | some f => subirAStorageDrive w f.originalname f.mimetype folderQuejas
  match upload with
  | (none, cs) => { status := 500, calls := cs, store := store }
  | (some fileUrl, cs) =>
    if b.nombre.isNone || b.email.isNone || b.telefono.isNone ||
        b.sucursal.isNone || b.asunto.isNone then
      { status := 500, calls := cs, store := store }
    else
    let row : RowQ :=
      { id := nextIdQ store, nombre := b.nombre, email := b.email,
        telefono := b.telefono, sucursal := b.sucursal, asunto := b.asunto,
        mensaje := jsOrD b.mensaje "", archivo_url := fileUrl,
        fecha_envio := fecha }
    let ci := Call.dbInsert "quejas"
      [optSql b.nombre, optSql b.email, optSql b.telefono, optSql b.sucursal,
       optSql b.asunto, SqlVal.s (jsOrD b.mensaje ""), SqlVal.s fileUrl,
       SqlVal.s fecha]
    if !w.insertOk then { status := 500, calls := cs ++ [ci], store := store }
    else if truthy env.emailTo then
      let cm := Call.mail ("[QUEJA] " ++ jsOrD b.asunto "(Sin asunto)" ++ " - " ++
        jsOrD b.nombre "Usuario")
      if !w.mailOk then
        { status := 500, calls := cs ++ [ci, cm], store := store ++ [row] }
      else
        { status := 200, calls := cs ++ [ci, cm], store := store ++ [row] }
    else { status := 200, calls := cs ++ [ci], store := store ++ [row] }

/-- CSV value rendering of the json2csv serializer: wrap in double quotes,
doubling embedded double quotes. -/
def csvEscape (s : String) : String :=
  "\"" ++ s.replace "\"" "\"\"" ++ "\""

/-- CSV cell for a field that may be absent: an absent value renders as an
empty cell. -/
def csvCell : Option String → String
  | none => ""
  | some s => csvEscape s

/-- Header line of the postulaciones export: the object keys of the mapped
records, in insertion order, joined by the semicolon delimiter. -/
def csvHeaderP : String :=
  String.intercalate ";" (["Nombre", "Correo", "Teléfono", "Cargo", "Mensaje",
    "Archivo (Google Drive)", "Fecha de Envío"].map csvEscape)

/-- Data line of the export for one row; fmt is the locale rendering of
the stored timestamp, an external collaborator. -/
def csvRowP (fmt : String → String) (r : RowP) : String :=
  String.intercalate ";" [csvCell r.nombre, csvCell r.email, csvCell r.telefono,
    csvCell r.cargo, csvEscape r.mensaje, csvEscape r.archivo_url,
    csvEscape (fmt r.fecha_envio)]

/-- Descending order on postulaciones rows by the stored timestamp text,
the ORDER BY fecha_envio DESC of the export query. -/
def fechaDesc (a b : RowP) : Prop := b.fecha_envio ≤ a.fecha_envio

instance : DecidableRel fechaDesc := fun a b =>
  inferInstanceAs (Decidable (b.fecha_envio ≤ a.fecha_envio))

instance : IsTotal RowP fechaDesc :=
  ⟨fun a b => (le_total b.fecha_envio a.fecha_envio).imp id id⟩

instance : IsTrans RowP fechaDesc :=
  ⟨fun _ _ _ hab hbc => le_trans hbc hab⟩

/-- The rows the export query returns: all postulaciones rows, ordered by
fecha_envio descending. -/
def selectAllDesc (store : List RowP) : List RowP :=
  List.insertionSort fechaDesc store

/-- Outcome of the CSV export endpoint: status and response body. -/
structure CsvRes where
  status : Nat
  body : String
deriving DecidableEq, Repr

/-- Variant 3 GET api descargar-postulaciones: 404 on an empty table, else
a byte-order-mark followed by the semicolon-delimited serialization of the
ordered rows. -/
def descargarV3 (fmt : String → String) (store : List RowP) : CsvRes :=
  let registros := selectAllDesc store
  if registros.isEmpty then
    { status := 404, body := "No hay postulaciones registradas." }
  else
    { status := 200,
      body := "\uFEFF" ++
        String.intercalate "\n" (csvHeaderP :: registros.map (csvRowP fmt)) }

/-- Variant 2 GET api descargar-postulaciones: same query, mapping and
serializer as variant 3, with the byte-order-mark concatenated at send. -/
def descargarV2 (fmt : String → String) (store : List RowP) : CsvRes :=
  let registros := selectAllDesc store
  if registros.isEmpty then
    { status := 404, body := "No hay postulaciones registradas." }
  else
    let csv := String.intercalate "\n" (csvHeaderP :: registros.map (csvRowP fmt))
    { status := 200, body := "\uFEFF" ++ csv }

/-- The in-memory hit map of the variant 1 rate limiter. -/
def Hits := List (String × Nat)

/-- Map lookup, as hits.get of the source. -/
def mapGet : List (String × Nat) → String → Option Nat
  | [], _ => none
  | (k, v) :: rest, q => if k = q then some v else mapGet rest q

/-- Map update, as hits.set of the source. -/
def mapSet : List (String × Nat) → String → Nat → List (String × Nat)
  | [], q, v => [(q, v)]
  | (k, w) :: rest, q, v =>
    if k = q then (q, v) :: rest else (k, w) :: mapSet rest q v

/-- Rate limiter key for one request: client address and minute of hour. -/
def rlKey (ip : String) (minute : Nat) : String :=
  ip ++ ":" ++ toString minute

/-- Client address as the rate limiter computes it, with the unknown
fallback. -/
def rlIp (r : Req) : String := jsOrD (clientIp r) "unknown"

/-- One pass through the rate-limit middleware: increment the counter for
the key, then reject (429, no handler runs) when it exceeds 60; the Bool
is true when the request is passed on to the routed handler. -/
def rlStep (hits : List (String × Nat)) (ip : String) (minute : Nat) :
    List (String × Nat) × Bool :=
  let k := rlKey ip minute
  let c := (mapGet hits k).getD 0 + 1
  (mapSet hits k c, decide (c ≤ 60))

/-- Process n consecutive requests with the same client address and minute
bucket, returning the final hit map and each request's outcome in order. -/
def rlRun (hits : List (String × Nat)) (ip : String) (minute : Nat) :
    Nat → List (String × Nat) × List Bool
  | 0 => (hits, [])
  | n + 1 =>
    let s := rlStep hits ip minute
    let rest := rlRun s.1 ip minute n
    (rest.1, s.2 :: rest.2)

/-- Sample behavior where every external call succeeds. -/
def wOK : World := ⟨true, true, true, true, true, "fid1", "uuid1"⟩

/-- Sample all-success behavior with a different object id and UUID. -/
def wOK2 : World := ⟨true, true, true, true, true, "fid2", "uuid2"⟩

/-- Sample behavior where only the Notifier send throws. -/
def wMailFail : World := ⟨true, true, true, true, false, "fid1", "uuid1"⟩

/-- Sample behavior where the storage create call throws. -/
def wCreateFail : World := ⟨false, true, true, true, true, "fid1", "uuid1"⟩

/-- Sample configuration with both folders and a recipient set. -/
def envA : Env := ⟨some "gfolder", some "qfolder", some "to@x.com", none⟩

/-- Sample request metadata. -/
def reqA : Req := ⟨none, some "9.9.9.9", some "agent"⟩

/-- Sample attachment. -/
def fileA : FileUpload := ⟨some [1, 2, 3], "cv.pdf", "application/pdf"⟩

/-- Sample complete job-application body. -/
def formA : FormBody :=
  ⟨some "Ana Maria", some "ana@x.com", some "3000000000", some "Cajera", none⟩

/-- Sample complete complaint body. -/
def quejaA : QuejaBody :=
  ⟨some "Ana", some "ana@x.com", some "3000000000", some "Centro",
   some "Demora", some "Muy lento"⟩

/-- Sample complaint body with the required nombre field absent. -/
def quejaMissing : QuejaBody :=
  ⟨none, some "ana@x.com", some "3000000000", some "Centro",
   some "Demora", some "Muy lento"⟩

/-- Sample complaint body with every field present but the required nombre
field equal to the empty string. -/
def quejaEmptyName : QuejaBody :=
  ⟨some "", some "ana@x.com", some "3000000000", some "Centro",
   some "Demora", some "Muy lento"⟩

/-- Sample job-application body with the required email field absent. -/
def formMissing : FormBody :=
  ⟨some "Ana", none, some "3000000000", some "Cajera", none⟩

/-- Sample postulaciones rows (out of timestamp order). -/
def rowA : RowP :=
  ⟨1, some "Ana", some "ana@x.com", some "1", some "Cajera", "", "",
   "2024-01-05T10:00:00.000Z"⟩

/-- Second sample row, with an earlier timestamp than rowA. -/
def rowB : RowP :=
  ⟨2, some "Beto", some "beto@x.com", some "2", some "Mesero", "hola", "",
   "2024-01-03T10:00:00.000Z"⟩

/-- A truthy field is in particular present. -/
theorem truthy_isNone_false (a : Option String) (h : truthy a = true) :
    a.isNone = false := by
  cases a with
  | none => simp [truthy] at h
  | some s => rfl

/-- All four required job-application fields of a body passing the
variant 1 validation are present. -/
theorem formValid_isNone (b : FormBody)
    (hb : (truthy b.nombre && truthy b.email && truthy b.telefono &&
      truthy b.cargo) = true) :
    b.nombre.isNone = false ∧ b.email.isNone = false ∧
    b.telefono.isNone = false ∧ b.cargo.isNone = false := by
  simp only [Bool.and_eq_true] at hb
  exact ⟨truthy_isNone_false _ hb.1.1.1, truthy_isNone_false _ hb.1.1.2,
    truthy_isNone_false _ hb.1.2, truthy_isNone_false _ hb.2⟩

/-- All complaint fields bound unguarded into the variant 3 insert are
present when the body passes the variant 1 validation. -/
theorem quejaValid_isNone (q : QuejaBody)
    (hq : (truthy q.nombre && truthy q.email && truthy q.telefono &&
      truthy q.sucursal && truthy q.asunto && truthy q.mensaje) = true) :
    q.nombre.isNone = false ∧ q.email.isNone = false ∧
    q.telefono.isNone = false ∧ q.sucursal.isNone = false ∧
    q.asunto.isNone = false := by
  simp only [Bool.and_eq_true] at hq
  exact ⟨truthy_isNone_false _ hq.1.1.1.1.1, truthy_isNone_false _ hq.1.1.1.1.2,
    truthy_isNone_false _ hq.1.1.1.2, truthy_isNone_false _ hq.1.1.2,
    truthy_isNone_false _ hq.1.2⟩

/-- C1 (amended): in variant 1 a submission missing any required field for
its kind gets the missing-fields 400 response with no external call at
all.  Variants 2 and 3 perform no required-field validation: variant 2
formulario answers 400 exactly when the attachment is absent (likewise
with no external calls), and with a required field present but empty the
variant 2 and 3 handlers run the full pipeline and answer 200, while with
a field entirely absent the unguarded insert bind makes the database
client throw, yielding the generic 500, never the missing-fields 400. -/
theorem c1_missing_fields
    (w : World) (env : Env) (r : Req) (b : FormBody) (q : QuejaBody)
    (file qfile : Option FileUpload) (now : Nat) (store : List RowP) (fecha : String)
    (hb : (truthy b.nombre && truthy b.email && truthy b.telefono &&
      truthy b.cargo) = false)
    (hq : (truthy q.nombre && truthy q.email && truthy q.telefono &&
      truthy q.sucursal && truthy q.asunto && truthy q.mensaje) = false) :
    formularioV1 w env r b file now = ⟨400, []⟩ ∧
    quejasV1 w env r q qfile now = ⟨400, []⟩ ∧
    formularioV2 w env b none store fecha = ⟨400, [], store⟩ := by
  refine ⟨?_, ?_, rfl⟩
  · unfold formularioV1
    rw [hb]
    rfl
  · unfold quejasV1
    rw [hq]
    rfl

/-- C1 witness: concrete bodies with a missing field, run through all
three embedded handlers that do validate. -/
theorem c1_missing_fields_witness :
    (truthy formMissing.nombre && truthy formMissing.email &&
      truthy formMissing.telefono && truthy formMissing.cargo) = false ∧
    (truthy quejaMissing.nombre && truthy quejaMissing.email &&
      truthy quejaMissing.telefono && truthy quejaMissing.sucursal &&
      truthy quejaMissing.asunto && truthy quejaMissing.mensaje) = false ∧
    (formularioV1 wOK envA reqA formMissing none 7 = ⟨400, []⟩ ∧
     quejasV1 wOK envA reqA quejaMissing none 7 = ⟨400, []⟩ ∧
     formularioV2 wOK envA formMissing none [] "2024" = ⟨400, [], []⟩) :=
  ⟨by decide, by decide,
   c1_missing_fields wOK envA reqA formMissing quejaMissing none none 7 [] "2024"
     (by decide) (by decide)⟩

/-- C1 counterexample: variant 3 quejas, with the required nombre field
present but empty (an empty string binds fine into the insert), still
answers 200, inserts a row and sends the notification instead of the
missing-fields 400 with no external call, so the claim fails on the code
it cites. -/
theorem c1_counterexample :
    (quejasV3 wOK envA quejaEmptyName none [] "2024").status = 200 ∧
    (quejasV3 wOK envA quejaEmptyName none [] "2024").store.length = 1 ∧
    (quejasV3 wOK envA quejaEmptyName none [] "2024").calls.any Call.isInsert = true ∧
    (quejasV3 wOK envA quejaEmptyName none [] "2024").calls.any Call.isMail = true := by
  decide

/-- Updating a key and reading it back yields the written counter. -/
theorem mapGet_mapSet_self (m : List (String × Nat)) (k : String) (v : Nat) :
    mapGet (mapSet m k v) k = some v := by
  induction m with
  | nil => simp [mapGet, mapSet]
  | cons p rest ih =>
    obtain ⟨a, b⟩ := p
    by_cases h : a = k <;> simp [mapGet, mapSet, h, ih]

/-- Updating one key leaves every other counter unchanged. -/
theorem mapGet_mapSet_other (m : List (String × Nat)) (k q : String) (v : Nat)
    (h : k ≠ q) : mapGet (mapSet m k v) q = mapGet m q := by
  induction m with
  | nil => simp [mapGet, mapSet, h]
  | cons p rest ih =>
    obtain ⟨a, b⟩ := p
    by_cases ha : a = k
    · subst ha
      simp [mapGet, mapSet, h]
    · simp [mapGet, mapSet, ha, ih]

/-- Characterization of a run of same-key requests: the counter rises by
one per request, and the i-th request (0-based) is passed on exactly when
the counter it produces stays at most 60. -/
theorem rlRun_spec (ip : String) (minute : Nat) (n : Nat) :
    ∀ (hits : List (String × Nat)) (c : Nat),
      (mapGet hits (rlKey ip minute)).getD 0 = c →
      (mapGet (rlRun hits ip minute n).1 (rlKey ip minute)).getD 0 = c + n ∧
      (rlRun hits ip minute n).2 = (List.range n).map (fun i => decide (c + i < 60)) := by
  induction n with
  | zero =>
    intro hits c h
    simpa [rlRun] using h
  | succ n ih =>
    intro hits c h
    have hstep : mapGet (mapSet hits (rlKey ip minute) (c + 1)) (rlKey ip minute)
        = some (c + 1) := mapGet_mapSet_self hits (rlKey ip minute) (c + 1)
    obtain ⟨h1, h2⟩ := ih (mapSet hits (rlKey ip minute) (c + 1)) (c + 1) (by simp [hstep])
    simp only [rlRun, rlStep, h]
    constructor
    · rw [h1]
      omega
    · rw [h2, List.range_succ_eq_map, List.map_cons, List.map_map]
      have hhead : decide (c + 1 ≤ 60) = decide (c + 0 < 60) := by
        rw [decide_eq_decide]
        omega
      have htail : (fun i => decide (c + 1 + i < 60))
          = ((fun i => decide (c + i < 60)) ∘ Nat.succ) := by
        funext i
        simp only [Function.comp]
        rw [decide_eq_decide]
        omega
      rw [htail, hhead]

/-- C2: for a fixed client address whose minute-bucket counter is fresh,
the 60th request of the bucket is passed on to the routed handler and the
61st is rejected immediately with the throttling response (the outcome
false means no handler runs for it). -/
theorem c2_rate_limit (hits : List (String × Nat)) (ip : String) (minute : Nat)
    (h : mapGet hits (rlKey ip minute) = none) :
    (rlRun hits ip minute 61).2.get? 59 = some true ∧
    (rlRun hits ip minute 61).2.get? 60 = some false := by
  obtain ⟨-, h2⟩ := rlRun_spec ip minute 61 hits 0 (by simp [h])
  rw [h2]
  constructor <;> decide

/-- C2 witness: a concrete fresh address and minute bucket. -/
theorem c2_rate_limit_witness :
    mapGet [] (rlKey "9.9.9.9" 5) = none ∧
    ((rlRun [] "9.9.9.9" 5 61).2.get? 59 = some true ∧
     (rlRun [] "9.9.9.9" 5 61).2.get? 60 = some false) :=
  ⟨rfl, c2_rate_limit [] "9.9.9.9" 5 rfl⟩

/-- C9: the counter is incremented before the threshold check on every
request, including rejected ones; a request under a different key never
changes it (no reset or eviction path exists); and once the counter has
reached 60, every further request with the key is rejected while still
raising the counter by one each time. -/
theorem c9_saturated_key_rejects_forever
    (hits : List (String × Nat)) (ip : String) (minute : Nat)
    (ip2 : String) (minute2 : Nat) (n : Nat)
    (h60 : 60 ≤ (mapGet hits (rlKey ip minute)).getD 0)
    (hne : rlKey ip2 minute2 ≠ rlKey ip minute) :
    (mapGet (rlStep hits ip minute).1 (rlKey ip minute)).getD 0
      = (mapGet hits (rlKey ip minute)).getD 0 + 1 ∧
    mapGet (rlStep hits ip2 minute2).1 (rlKey ip minute)
      = mapGet hits (rlKey ip minute) ∧
    (∀ b ∈ (rlRun hits ip minute n).2, b = false) ∧
    (mapGet (rlRun hits ip minute n).1 (rlKey ip minute)).getD 0
      = (mapGet hits (rlKey ip minute)).getD 0 + n := by
  obtain ⟨h1, h2⟩ := rlRun_spec ip minute n hits _ rfl
  refine ⟨?_, ?_, ?_, h1⟩
  · simp [rlStep, mapGet_mapSet_self]
  · simpa [rlStep] using
      mapGet_mapSet_other hits (rlKey ip2 minute2) (rlKey ip minute)
        ((mapGet hits (rlKey ip2 minute2)).getD 0 + 1) hne
  · intro b hb
    rw [h2] at hb
    rcases List.mem_map.mp hb with ⟨i, _, hbi⟩
    rw [← hbi, decide_eq_false_iff_not]
    omega

/-- C9 witness: a key already at 60 hits, a distinct second key, and a run
of two further requests. -/
theorem c9_saturated_key_witness :
    60 ≤ (mapGet [(rlKey "9.9.9.9" 3, 60)] (rlKey "9.9.9.9" 3)).getD 0 ∧
    rlKey "8.8.8.8" 3 ≠ rlKey "9.9.9.9" 3 ∧
    ((mapGet (rlStep [(rlKey "9.9.9.9" 3, 60)] "9.9.9.9" 3).1 (rlKey "9.9.9.9" 3)).getD 0
      = (mapGet [(rlKey "9.9.9.9" 3, 60)] (rlKey "9.9.9.9" 3)).getD 0 + 1 ∧
    mapGet (rlStep [(rlKey "9.9.9.9" 3, 60)] "8.8.8.8" 3).1 (rlKey "9.9.9.9" 3)
      = mapGet [(rlKey "9.9.9.9" 3, 60)] (rlKey "9.9.9.9" 3) ∧
    (∀ b ∈ (rlRun [(rlKey "9.9.9.9" 3, 60)] "9.9.9.9" 3 2).2, b = false) ∧
    (mapGet (rlRun [(rlKey "9.9.9.9" 3, 60)] "9.9.9.9" 3 2).1 (rlKey "9.9.9.9" 3)).getD 0
      = (mapGet [(rlKey "9.9.9.9" 3, 60)] (rlKey "9.9.9.9" 3)).getD 0 + 2) :=
  ⟨by decide, by decide,
   c9_saturated_key_rejects_forever [(rlKey "9.9.9.9" 3, 60)] "9.9.9.9" 3 "8.8.8.8" 3 2
     (by decide) (by decide)⟩

/-- When the storage create or permission call throws, the variant 1
upload helper reports the throw, and every call it attempted went to the
storage gateway. -/
theorem uploadToDrive_fail (w : World) (buf : List Nat) (fn mt : String)
    (pf : Option String) (h : w.createOk = false ∨ w.permOk = false) :
    ∃ cs, uploadToDrive w (some buf) fn mt pf = (none, cs) ∧
      cs.all Call.isDrive = true := by
  cases hc : w.createOk with
  | false =>
    exact ⟨[Call.driveCreate fn mt [pf]], by simp [uploadToDrive, hc], rfl⟩
  | true =>
    have hp : w.permOk = false := by simpa [hc] using h
    exact ⟨[Call.driveCreate fn mt [pf], Call.drivePerm w.fileId],
      by simp [uploadToDrive, hc, hp], rfl⟩

/-- When any storage call throws while the folder id is configured, the
variant 3 upload helper reports the throw, and every call it attempted
went to the storage gateway. -/
theorem subirAStorageDrive_fail (w : World) (fn mt : String)
    (folderId : Option String) (hfolder : truthy folderId = true)
    (h : w.createOk = false ∨ w.updateOk = false ∨ w.permOk = false) :
    ∃ cs, subirAStorageDrive w fn mt folderId = (none, cs) ∧
      cs.all Call.isDrive = true := by
  cases hc : w.createOk with
  | false =>
    exact ⟨[Call.driveCreate fn mt []], by simp [subirAStorageDrive, hc], rfl⟩
  | true =>
    cases hu : w.updateOk with
    | false =>
      exact ⟨[Call.driveCreate fn mt [], Call.driveUpdate w.fileId folderId],
        by simp [subirAStorageDrive, hc, hu, hfolder], rfl⟩
    | true =>
      have hp : w.permOk = false := by simpa [hc, hu] using h
      exact ⟨[Call.driveCreate fn mt [], Call.driveUpdate w.fileId folderId,
        Call.drivePerm w.fileId],
        by simp [subirAStorageDrive, hc, hu, hp, hfolder], rfl⟩

/-- A truthy fallback makes the whole JS or-expression truthy. -/
theorem truthy_jsOr_of_right (a b : Option String) (h : truthy b = true) :
    truthy (jsOr a b) = true := by
  cases a with
  | none => simpa [jsOr] using h
  | some s =>
    by_cases hs : s = ""
    · simpa [jsOr, hs] using h
    · simp [jsOr, truthy, hs]

/-- C3: when the attachment upload step throws, each handler aborts with
the 500 failure before persistence: every external call it attempted went
to the Object Storage Gateway (so no Durable Record Store insert and no
Notifier send happened), and the variant 3 tables are unchanged. -/
theorem c3_upload_failure_aborts
    (w : World) (env : Env) (r : Req) (b : FormBody) (q : QuejaBody)
    (f : FileUpload) (bb : List Nat) (now : Nat)
    (storeP : List RowP) (storeQ : List RowQ) (fecha : String)
    (hb : (truthy b.nombre && truthy b.email && truthy b.telefono &&
      truthy b.cargo) = true)
    (hq : (truthy q.nombre && truthy q.email && truthy q.telefono &&
      truthy q.sucursal && truthy q.asunto && truthy q.mensaje) = true)
    (hbuf : f.buffer = some bb)
    (hfolder : truthy env.googleFolderId = true)
    (h1 : w.createOk = false ∨ w.permOk = false)
    (h3 : w.createOk = false ∨ w.updateOk = false ∨ w.permOk = false) :
    ((formularioV1 w env r b (some f) now).status = 500 ∧
      (formularioV1 w env r b (some f) now).calls.all Call.isDrive = true) ∧
    ((quejasV1 w env r q (some f) now).status = 500 ∧
      (quejasV1 w env r q (some f) now).calls.all Call.isDrive = true) ∧
    ((formularioV3 w env b (some f) storeP fecha).status = 500 ∧
      (formularioV3 w env b (some f) storeP fecha).calls.all Call.isDrive = true ∧
      (formularioV3 w env b (some f) storeP fecha).store = storeP) ∧
    ((quejasV3 w env q (some f) storeQ fecha).status = 500 ∧
      (quejasV3 w env q (some f) storeQ fecha).calls.all Call.isDrive = true ∧
      (quejasV3 w env q (some f) storeQ fecha).store = storeQ) := by
  obtain ⟨cs1, hcs1, hall1⟩ := uploadToDrive_fail w bb
    ("HV_" ++ sanitizeName (b.nombre.getD "") ++ "_" ++ toString now)
    f.mimetype env.googleFolderId h1
  obtain ⟨cs2, hcs2, hall2⟩ := uploadToDrive_fail w bb
    ("QUEJA_" ++ sanitizeName (q.nombre.getD "") ++ "_" ++ toString now)
    f.mimetype (jsOr env.googleFolderQuejasId env.googleFolderId) h1
  obtain ⟨cs3, hcs3, hall3⟩ := subirAStorageDrive_fail w f.originalname
    f.mimetype env.googleFolderId hfolder h3
  obtain ⟨cs4, hcs4, hall4⟩ := subirAStorageDrive_fail w f.originalname
    f.mimetype (jsOr env.googleFolderQuejasId env.googleFolderId)
    (truthy_jsOr_of_right _ _ hfolder) h3
  refine ⟨?_, ?_, ?_, ?_⟩
  · have e : formularioV1 w env r b (some f) now = ⟨500, cs1⟩ := by
      simp only [formularioV1, hb, hbuf, Bool.not_true, Bool.false_eq_true,
        if_false, hcs1]
    rw [e]
    exact ⟨rfl, hall1⟩
  · have e : quejasV1 w env r q (some f) now = ⟨500, cs2⟩ := by
      simp only [quejasV1, hq, hbuf, Bool.not_true, Bool.false_eq_true,
        if_false, hcs2]
    rw [e]
    exact ⟨rfl, hall2⟩
  · have e : formularioV3 w env b (some f) storeP fecha = ⟨500, cs3, storeP⟩ := by
      simp only [formularioV3, hcs3]
    rw [e]
    exact ⟨rfl, hall3, rfl⟩
  · have e : quejasV3 w env q (some f) storeQ fecha = ⟨500, cs4, storeQ⟩ := by
      simp only [quejasV3, hcs4]
    rw [e]
    exact ⟨rfl, hall4, rfl⟩

/-- C3 witness: concrete valid submissions with an attachment whose
storage create call throws. -/
theorem c3_upload_failure_witness :
    (truthy formA.nombre && truthy formA.email && truthy formA.telefono &&
      truthy formA.cargo) = true ∧
    (truthy quejaA.nombre && truthy quejaA.email && truthy quejaA.telefono &&
      truthy quejaA.sucursal && truthy quejaA.asunto && truthy quejaA.mensaje) = true ∧
    fileA.buffer = some [1, 2, 3] ∧
    truthy envA.googleFolderId = true ∧
    (wCreateFail.createOk = false ∨ wCreateFail.permOk = false) ∧
    (wCreateFail.createOk = false ∨ wCreateFail.updateOk = false ∨
      wCreateFail.permOk = false) ∧
    (((formularioV1 wCreateFail envA reqA formA (some fileA) 7).status = 500 ∧
      (formularioV1 wCreateFail envA reqA formA (some fileA) 7).calls.all
        Call.isDrive = true) ∧
    ((quejasV1 wCreateFail envA reqA quejaA (some fileA) 7).status = 500 ∧
      (quejasV1 wCreateFail envA reqA quejaA (some fileA) 7).calls.all
        Call.isDrive = true) ∧
    ((formularioV3 wCreateFail envA formA (some fileA) [rowA] "2024").status = 500 ∧
      (formularioV3 wCreateFail envA formA (some fileA) [rowA] "2024").calls.all
        Call.isDrive = true ∧
      (formularioV3 wCreateFail envA formA (some fileA) [rowA] "2024").store = [rowA]) ∧
    ((quejasV3 wCreateFail envA quejaA (some fileA) [] "2024").status = 500 ∧
      (quejasV3 wCreateFail envA quejaA (some fileA) [] "2024").calls.all
        Call.isDrive = true ∧
      (quejasV3 wCreateFail envA quejaA (some fileA) [] "2024").store = [])) :=
  ⟨by decide, by decide, rfl, by decide, Or.inl rfl, Or.inl rfl,
   c3_upload_failure_aborts wCreateFail envA reqA formA quejaA fileA [1, 2, 3] 7
     [rowA] [] "2024" (by decide) (by decide) rfl (by decide)
     (Or.inl rfl) (Or.inl rfl)⟩

/-- C4: a valid job application without attachment triggers no Object
Storage Gateway call in either variant that persists it, and the
persisted attachment reference is empty: variant 1 binds NULL for the
file id and URL columns, variant 3 stores the empty string URL. -/
theorem c4_no_attachment_no_storage_call
    (w : World) (env : Env) (r : Req) (b : FormBody)
    (now : Nat) (store : List RowP) (fecha : String)
    (hb : (truthy b.nombre && truthy b.email && truthy b.telefono &&
      truthy b.cargo) = true)
    (hins : w.insertOk = true) :
    ((formularioV1 w env r b none now).calls.all (fun c => !c.isDrive) = true ∧
     (formularioV1 w env r b none now).calls.head? = some (Call.dbInsert "postulaciones"
       [SqlVal.s w.uuid, SqlVal.s (b.nombre.getD ""), SqlVal.s (b.email.getD ""),
        SqlVal.s (b.telefono.getD ""), SqlVal.s (b.cargo.getD ""),
        SqlVal.s (b.mensaje.getD ""), SqlVal.null, SqlVal.null,
        optSql (clientIp r), optSql r.userAgent])) ∧
    ((formularioV3 w env b none store fecha).calls.all (fun c => !c.isDrive) = true ∧
     ∃ row : RowP, (formularioV3 w env b none store fecha).store = store ++ [row] ∧
       row.archivo_url = "") := by
  obtain ⟨hn, he, htl, hcg⟩ := formValid_isNone b hb
  constructor
  · cases hm : w.mailOk <;>
      simp [formularioV1, hb, hins, hm, Call.isDrive, optSql]
  · constructor
    · cases hm : w.mailOk <;> cases ht : truthy env.emailTo <;>
        simp [formularioV3, hins, hm, ht, hn, he, htl, hcg, Call.isDrive]
    · refine
        ⟨{ id := nextIdP store, nombre := b.nombre, email := b.email,
            telefono := b.telefono, cargo := b.cargo,
            mensaje := jsOrD b.mensaje "", archivo_url := "",
            fecha_envio := fecha }, ?_, rfl⟩
      cases hm : w.mailOk <;> cases ht : truthy env.emailTo <;>
        simp [formularioV3, hins, hm, ht, hn, he, htl, hcg]

/-- C4 witness: a concrete valid application with no file. -/
theorem c4_no_attachment_witness :
    (truthy formA.nombre && truthy formA.email && truthy formA.telefono &&
      truthy formA.cargo) = true ∧
    wOK.insertOk = true ∧
    (((formularioV1 wOK envA reqA formA none 7).calls.all (fun c => !c.isDrive) = true ∧
      (formularioV1 wOK envA reqA formA none 7).calls.head? = some (Call.dbInsert "postulaciones"
        [SqlVal.s wOK.uuid, SqlVal.s (formA.nombre.getD ""), SqlVal.s (formA.email.getD ""),
         SqlVal.s (formA.telefono.getD ""), SqlVal.s (formA.cargo.getD ""),
         SqlVal.s (formA.mensaje.getD ""), SqlVal.null, SqlVal.null,
         optSql (clientIp reqA), optSql reqA.userAgent])) ∧
    ((formularioV3 wOK envA formA none [rowA] "2024").calls.all (fun c => !c.isDrive) = true ∧
     ∃ row : RowP, (formularioV3 wOK envA formA none [rowA] "2024").store = [rowA] ++ [row] ∧
       row.archivo_url = "")) :=
  ⟨by decide, rfl,
   c4_no_attachment_no_storage_call wOK envA reqA formA 7 [rowA] "2024" (by decide) rfl⟩

/-- C10: when the optional message field is absent from a job application,
every variant persists the empty string in the message column: variant 1
through the destructuring default, variants 2 and 3 through the
or-empty-string expression in the insert arguments. -/
theorem c10_absent_message_normalized
    (w : World) (env : Env) (r : Req) (b : FormBody) (f : FileUpload)
    (now : Nat) (store2 store3 : List RowP) (fecha : String)
    (hb : (truthy b.nombre && truthy b.email && truthy b.telefono &&
      truthy b.cargo) = true)
    (hmens : b.mensaje = none)
    (hins : w.insertOk = true)
    (hcr : w.createOk = true) (hup : w.updateOk = true) (hpm : w.permOk = true) :
    ((formularioV1 w env r b none now).calls.head? = some (Call.dbInsert "postulaciones"
       [SqlVal.s w.uuid, SqlVal.s (b.nombre.getD ""), SqlVal.s (b.email.getD ""),
        SqlVal.s (b.telefono.getD ""), SqlVal.s (b.cargo.getD ""),
        SqlVal.s "", SqlVal.null, SqlVal.null,
        optSql (clientIp r), optSql r.userAgent]) ∧
     (∃ row : RowP, (formularioV2 w env b (some f) store2 fecha).store
        = store2 ++ [row] ∧ row.mensaje = "") ∧
     (∃ row : RowP, (formularioV3 w env b none store3 fecha).store
        = store3 ++ [row] ∧ row.mensaje = "")) := by
  obtain ⟨hn, he, htl, hcg⟩ := formValid_isNone b hb
  refine ⟨?_, ?_, ?_⟩
  · cases hm : w.mailOk <;>
      simp [formularioV1, hb, hins, hm, hmens, optSql]
  · refine
      ⟨{ id := nextIdP store2, nombre := b.nombre, email := b.email,
          telefono := b.telefono, cargo := b.cargo,
          mensaje := jsOrD b.mensaje "", archivo_url := driveUrl w.fileId,
          fecha_envio := fecha }, ?_, by simp [hmens, jsOrD]⟩
    cases hm : w.mailOk <;>
      simp [formularioV2, hins, hcr, hup, hpm, hm, hn, he, htl, hcg]
  · refine
      ⟨{ id := nextIdP store3, nombre := b.nombre, email := b.email,
          telefono := b.telefono, cargo := b.cargo,
          mensaje := jsOrD b.mensaje "", archivo_url := "",
          fecha_envio := fecha }, ?_, by simp [hmens, jsOrD]⟩
    cases hm : w.mailOk <;> cases ht : truthy env.emailTo <;>
      simp [formularioV3, hins, hm, ht, hn, he, htl, hcg]

/-- C10 witness: a concrete application with the message field absent. -/
theorem c10_absent_message_witness :
    (truthy formA.nombre && truthy formA.email && truthy formA.telefono &&
      truthy formA.cargo) = true ∧
    formA.mensaje = none ∧
    wOK.insertOk = true ∧
    ((formularioV1 wOK envA reqA formA none 7).calls.head? = some (Call.dbInsert "postulaciones"
       [SqlVal.s wOK.uuid, SqlVal.s (formA.nombre.getD ""), SqlVal.s (formA.email.getD ""),
        SqlVal.s (formA.telefono.getD ""), SqlVal.s (formA.cargo.getD ""),
        SqlVal.s "", SqlVal.null, SqlVal.null,
        optSql (clientIp reqA), optSql reqA.userAgent]) ∧
     (∃ row : RowP, (formularioV2 wOK envA formA (some fileA) [] "2024").store
        = [] ++ [row] ∧ row.mensaje = "") ∧
     (∃ row : RowP, (formularioV3 wOK envA formA none [] "2024").store
        = [] ++ [row] ∧ row.mensaje = "")) :=
  ⟨by decide, rfl, rfl,
   c10_absent_message_normalized wOK envA reqA formA fileA 7 [] [] "2024"
     (by decide) rfl rfl rfl rfl rfl⟩

/-- C5 (amended): only variant 1 derives the uploaded object name from the
prefix for the kind, the submitter name with every whitespace run replaced
by one underscore, and the timestamp; variants 2 and 3 create the object
under the original file name of the attachment unchanged. -/
theorem c5_upload_object_names
    (w : World) (env : Env) (r : Req) (b : FormBody) (q : QuejaBody)
    (f : FileUpload) (bb : List Nat) (now : Nat)
    (storeP : List RowP) (storeQ : List RowQ) (fecha : String)
    (hb : (truthy b.nombre && truthy b.email && truthy b.telefono &&
      truthy b.cargo) = true)
    (hq : (truthy q.nombre && truthy q.email && truthy q.telefono &&
      truthy q.sucursal && truthy q.asunto && truthy q.mensaje) = true)
    (hbuf : f.buffer = some bb)
    (hcr : w.createOk = true) (hup : w.updateOk = true) (hpm : w.permOk = true)
    (hins : w.insertOk = true) (hml : w.mailOk = true) :
    (formularioV1 w env r b (some f) now).calls.head? = some (Call.driveCreate
      ("HV_" ++ sanitizeName (b.nombre.getD "") ++ "_" ++ toString now)
      f.mimetype [env.googleFolderId]) ∧
    (quejasV1 w env r q (some f) now).calls.head? = some (Call.driveCreate
      ("QUEJA_" ++ sanitizeName (q.nombre.getD "") ++ "_" ++ toString now)
      f.mimetype [jsOr env.googleFolderQuejasId env.googleFolderId]) ∧
    (formularioV2 w env b (some f) storeP fecha).calls.head? = some (Call.driveCreate
      f.originalname f.mimetype []) ∧
    (formularioV3 w env b (some f) storeP fecha).calls.head? = some (Call.driveCreate
      f.originalname f.mimetype []) ∧
    (quejasV3 w env q (some f) storeQ fecha).calls.head? = some (Call.driveCreate
      f.originalname f.mimetype []) := by
  obtain ⟨hn, he, htl, hcg⟩ := formValid_isNone b hb
  obtain ⟨qn, qe, qt, qs, qa⟩ := quejaValid_isNone q hq
  refine ⟨?_, ?_, ?_, ?_, ?_⟩
  · simp [formularioV1, uploadToDrive, hb, hbuf, hcr, hpm, hins, hml]
  · simp [quejasV1, uploadToDrive, hq, hbuf, hcr, hpm, hins, hml]
  · simp [formularioV2, hcr, hup, hpm, hins, hml, hn, he, htl, hcg]
  · cases hfo : truthy env.googleFolderId <;> cases ht : truthy env.emailTo <;>
      simp [formularioV3, subirAStorageDrive, hcr, hup, hpm, hins, hml, hfo, ht,
        hn, he, htl, hcg]
  · cases hfo : truthy (jsOr env.googleFolderQuejasId env.googleFolderId) <;>
      cases ht : truthy env.emailTo <;>
      simp [quejasV3, subirAStorageDrive, hcr, hup, hpm, hins, hml, hfo, ht,
        qn, qe, qt, qs, qa]

/-- C5 witness: concrete valid submissions with an attachment, run through
all five uploading handlers. -/
theorem c5_upload_object_names_witness :
    (truthy formA.nombre && truthy formA.email && truthy formA.telefono &&
      truthy formA.cargo) = true ∧
    (truthy quejaA.nombre && truthy quejaA.email && truthy quejaA.telefono &&
      truthy quejaA.sucursal && truthy quejaA.asunto && truthy quejaA.mensaje) = true ∧
    fileA.buffer = some [1, 2, 3] ∧
    ((formularioV1 wOK envA reqA formA (some fileA) 7).calls.head? = some (Call.driveCreate
      ("HV_" ++ sanitizeName (formA.nombre.getD "") ++ "_" ++ toString 7)
      fileA.mimetype [envA.googleFolderId]) ∧
    (quejasV1 wOK envA reqA quejaA (some fileA) 7).calls.head? = some (Call.driveCreate
      ("QUEJA_" ++ sanitizeName (quejaA.nombre.getD "") ++ "_" ++ toString 7)
      fileA.mimetype [jsOr envA.googleFolderQuejasId envA.googleFolderId]) ∧
    (formularioV2 wOK envA formA (some fileA) [] "2024").calls.head? = some (Call.driveCreate
      fileA.originalname fileA.mimetype []) ∧
    (formularioV3 wOK envA formA (some fileA) [] "2024").calls.head? = some (Call.driveCreate
      fileA.originalname fileA.mimetype []) ∧
    (quejasV3 wOK envA quejaA (some fileA) [] "2024").calls.head? = some (Call.driveCreate
      fileA.originalname fileA.mimetype [])) :=
  ⟨by decide, by decide, rfl,
   c5_upload_object_names wOK envA reqA formA quejaA fileA [1, 2, 3] 7 [] [] "2024"
     (by decide) (by decide) rfl rfl rfl rfl rfl rfl⟩

/-- C5 counterexample: variant 3 quejas uploads under the original file
name cv.pdf, which carries neither the QUEJA nor the HV derived-name
shape, refuting the claim for the cited variant 3 helper. -/
theorem c5_counterexample :
    (quejasV3 wOK envA quejaA (some fileA) [] "2024").calls.head?
      = some (Call.driveCreate "cv.pdf" "application/pdf" []) ∧
    "cv.pdf".data.take 6 ≠ "QUEJA_".data ∧
    "cv.pdf".data.take 3 ≠ "HV_".data := by
  refine ⟨by decide, by decide, by decide⟩

/-- C6: with zero job-application rows the export answers 404; with at
least one row it answers 200 and the body is the byte-order-mark followed
by the semicolon-delimited header and data lines, the data lines listing a
permutation of the table sorted by submission timestamp descending.  The
variant 2 and variant 3 endpoints agree. -/
theorem c6_csv_export (fmt : String → String) (store : List RowP)
    (h : store ≠ []) :
    descargarV3 fmt [] = ⟨404, "No hay postulaciones registradas."⟩ ∧
    descargarV2 fmt [] = ⟨404, "No hay postulaciones registradas."⟩ ∧
    ∃ l : List RowP, l.Perm store ∧ l.Sorted fechaDesc ∧
      descargarV3 fmt store = ⟨200,
        "\uFEFF" ++ String.intercalate "\n" (csvHeaderP :: l.map (csvRowP fmt))⟩ ∧
      descargarV2 fmt store = descargarV3 fmt store := by
  have hperm : (selectAllDesc store).Perm store :=
    List.perm_insertionSort fechaDesc store
  have hne : selectAllDesc store ≠ [] := by
    intro hnil
    rw [hnil] at hperm
    exact h (List.perm_nil.mp hperm.symm)
  have hie : (selectAllDesc store).isEmpty = false := List.isEmpty_eq_false.mpr hne
  refine ⟨rfl, rfl, selectAllDesc store, hperm,
    List.sorted_insertionSort fechaDesc store, ?_, ?_⟩
  · simp [descargarV3, hie]
  · simp [descargarV2, descargarV3, hie]

/-- C6 witness: a concrete two-row table given out of timestamp order. -/
theorem c6_csv_export_witness :
    ([rowB, rowA] : List RowP) ≠ [] ∧
    (descargarV3 id [] = ⟨404, "No hay postulaciones registradas."⟩ ∧
     descargarV2 id [] = ⟨404, "No hay postulaciones registradas."⟩ ∧
     ∃ l : List RowP, l.Perm [rowB, rowA] ∧ l.Sorted fechaDesc ∧
       descargarV3 id [rowB, rowA] = ⟨200,
         "\uFEFF" ++ String.intercalate "\n" (csvHeaderP :: l.map (csvRowP id))⟩ ∧
       descargarV2 id [rowB, rowA] = descargarV3 id [rowB, rowA]) :=
  ⟨by simp, c6_csv_export id [rowB, rowA] (by simp)⟩

/-- C7 (amended): in all three variants the Notifier send is awaited
inside the same try block as the rest of the pipeline, so a send failure
after a successful persistence fails the request with the 500 response in
every variant; the persisted row is not rolled back. -/
theorem c7_notify_failure_fails_request
    (w : World) (env : Env) (r : Req) (b : FormBody) (f : FileUpload)
    (now : Nat) (store2 store3 : List RowP) (fecha : String)
    (hb : (truthy b.nombre && truthy b.email && truthy b.telefono &&
      truthy b.cargo) = true)
    (hins : w.insertOk = true) (hmail : w.mailOk = false)
    (hcr : w.createOk = true) (hup : w.updateOk = true) (hpm : w.permOk = true)
    (hto : truthy env.emailTo = true) :
    ((formularioV1 w env r b none now).status = 500 ∧
      (formularioV1 w env r b none now).calls.any Call.isInsert = true) ∧
    ((formularioV2 w env b (some f) store2 fecha).status = 500 ∧
      ∃ row : RowP, (formularioV2 w env b (some f) store2 fecha).store
        = store2 ++ [row]) ∧
    ((formularioV3 w env b none store3 fecha).status = 500 ∧
      ∃ row : RowP, (formularioV3 w env b none store3 fecha).store
        = store3 ++ [row]) := by
  obtain ⟨hn, he, htl, hcg⟩ := formValid_isNone b hb
  refine ⟨⟨?_, ?_⟩, ⟨?_, ?_⟩, ⟨?_, ?_⟩⟩
  · simp [formularioV1, hb, hins, hmail]
  · simp [formularioV1, hb, hins, hmail, Call.isInsert]
  · simp [formularioV2, hcr, hup, hpm, hins, hmail, hn, he, htl, hcg]
  · refine
      ⟨{ id := nextIdP store2, nombre := b.nombre, email := b.email,
          telefono := b.telefono, cargo := b.cargo,
          mensaje := jsOrD b.mensaje "", archivo_url := driveUrl w.fileId,
          fecha_envio := fecha }, ?_⟩
    simp [formularioV2, hcr, hup, hpm, hins, hmail, hn, he, htl, hcg]
  · simp [formularioV3, hins, hmail, hto, hn, he, htl, hcg]
  · refine
      ⟨{ id := nextIdP store3, nombre := b.nombre, email := b.email,
          telefono := b.telefono, cargo := b.cargo,
          mensaje := jsOrD b.mensaje "", archivo_url := "",
          fecha_envio := fecha }, ?_⟩
    simp [formularioV3, hins, hmail, hto, hn, he, htl, hcg]

/-- C7 witness: a concrete valid submission against services where only
the mail send fails. -/
theorem c7_notify_failure_witness :
    (truthy formA.nombre && truthy formA.email && truthy formA.telefono &&
      truthy formA.cargo) = true ∧
    wMailFail.insertOk = true ∧ wMailFail.mailOk = false ∧
    truthy envA.emailTo = true ∧
    (((formularioV1 wMailFail envA reqA formA none 7).status = 500 ∧
      (formularioV1 wMailFail envA reqA formA none 7).calls.any Call.isInsert = true) ∧
    ((formularioV2 wMailFail envA formA (some fileA) [] "2024").status = 500 ∧
      ∃ row : RowP, (formularioV2 wMailFail envA formA (some fileA) [] "2024").store
        = [] ++ [row]) ∧
    ((formularioV3 wMailFail envA formA none [] "2024").status = 500 ∧
      ∃ row : RowP, (formularioV3 wMailFail envA formA none [] "2024").store
        = [] ++ [row])) :=
  ⟨by decide, rfl, rfl, by decide,
   c7_notify_failure_fails_request wMailFail envA reqA formA fileA 7 [] [] "2024"
     (by decide) rfl rfl rfl rfl rfl (by decide)⟩

/-- C7 counterexample: with only the Notifier failing, every one of the
three variants answers 500 even though the row was persisted, so there are
no two variants in which the outcome stays 200. -/
theorem c7_counterexample :
    (formularioV1 wMailFail envA reqA formA none 7).status = 500 ∧
    (formularioV1 wMailFail envA reqA formA none 7).calls.any Call.isInsert = true ∧
    (formularioV2 wMailFail envA formA (some fileA) [] "2024").status = 500 ∧
    (formularioV2 wMailFail envA formA (some fileA) [] "2024").store.length = 1 ∧
    (formularioV3 wMailFail envA formA none [] "2024").status = 500 ∧
    (formularioV3 wMailFail envA formA none [] "2024").store.length = 1 := by
  decide

/-- The fold underlying the AUTOINCREMENT id dominates every listed id. -/
theorem le_foldr_max (l : List Nat) (x : Nat) (hx : x ∈ l) :
    x ≤ l.foldr max 0 := by
  induction l with
  | nil => exact absurd hx (List.not_mem_nil x)
  | cons a rest ih =>
    rw [List.foldr_cons]
    rcases List.mem_cons.mp hx with h | h
    · exact h ▸ le_max_left _ _
    · exact le_trans (ih h) (le_max_right _ _)

/-- The next AUTOINCREMENT id is strictly larger than every id already in
the table. -/
theorem nextIdP_gt_mem (store : List RowP) (r : RowP) (hr : r ∈ store) :
    r.id < nextIdP store := by
  have hle := le_foldr_max (store.map RowP.id) r.id (List.mem_map_of_mem RowP.id hr)
  unfold nextIdP nextId
  omega

/-- C8: intake is not idempotent.  Running the variant 3 formulario twice
with identical field values appends two rows whose store-assigned
AUTOINCREMENT ids differ; and the variant 1 handler binds the freshly
generated UUID of each request as the row id, so two successful requests
whose generated UUIDs differ insert rows with distinct identifiers. -/
theorem c8_not_idempotent
    (w w1 w2 : World) (env : Env) (r : Req) (b : FormBody)
    (store : List RowP) (fecha : String) (now : Nat)
    (hb : (truthy b.nombre && truthy b.email && truthy b.telefono &&
      truthy b.cargo) = true)
    (hins : w.insertOk = true) (hmail : w.mailOk = true)
    (hins1 : w1.insertOk = true) (hmail1 : w1.mailOk = true)
    (hins2 : w2.insertOk = true) (hmail2 : w2.mailOk = true)
    (huuid : w1.uuid ≠ w2.uuid) :
    ((formularioV3 w env b none store fecha).status = 200 ∧
     (formularioV3 w env b none
        (formularioV3 w env b none store fecha).store fecha).status = 200 ∧
     ∃ r1 r2 : RowP,
       (formularioV3 w env b none store fecha).store = store ++ [r1] ∧
       (formularioV3 w env b none
          (formularioV3 w env b none store fecha).store fecha).store
         = store ++ [r1, r2] ∧
       r1.id ≠ r2.id) ∧
    ((formularioV1 w1 env r b none now).status = 200 ∧
     (formularioV1 w2 env r b none now).status = 200 ∧
     ∃ a1 a2 : List SqlVal,
       (formularioV1 w1 env r b none now).calls.head?
         = some (Call.dbInsert "postulaciones" a1) ∧
       (formularioV1 w2 env r b none now).calls.head?
         = some (Call.dbInsert "postulaciones" a2) ∧
       a1.head? = some (SqlVal.s w1.uuid) ∧
       a2.head? = some (SqlVal.s w2.uuid) ∧
       a1.head? ≠ a2.head?) := by
  have hstep : ∀ s : List RowP, (formularioV3 w env b none s fecha).status = 200 ∧
      (formularioV3 w env b none s fecha).store = s ++
        [{ id := nextIdP s, nombre := b.nombre, email := b.email,
            telefono := b.telefono, cargo := b.cargo,
            mensaje := jsOrD b.mensaje "", archivo_url := "",
            fecha_envio := fecha }] := by
    intro s
    obtain ⟨hn, he, htl, hcg⟩ := formValid_isNone b hb
    cases ht : truthy env.emailTo <;>
      refine ⟨by simp [formularioV3, hins, hmail, ht, hn, he, htl, hcg],
        by simp [formularioV3, hins, hmail, ht, hn, he, htl, hcg]⟩
  constructor
  · obtain ⟨hs1, he1⟩ := hstep store
    obtain ⟨hs2, he2⟩ := hstep (formularioV3 w env b none store fecha).store
    refine ⟨hs1, hs2,
      ⟨nextIdP store, b.nombre, b.email, b.telefono, b.cargo,
        jsOrD b.mensaje "", "", fecha⟩,
      ⟨nextIdP (formularioV3 w env b none store fecha).store, b.nombre, b.email,
        b.telefono, b.cargo, jsOrD b.mensaje "", "", fecha⟩,
      he1, ?_, ?_⟩
    · rw [he2, he1]
      simp
    · have hmem : (⟨nextIdP store, b.nombre, b.email, b.telefono, b.cargo,
          jsOrD b.mensaje "", "", fecha⟩ : RowP)
          ∈ (formularioV3 w env b none store fecha).store := by
        rw [he1]
        simp
      have hlt := nextIdP_gt_mem _ _ hmem
      intro heq
      rw [heq] at hlt
      simp at hlt
  · refine ⟨?_, ?_,
      [SqlVal.s w1.uuid, SqlVal.s (b.nombre.getD ""), SqlVal.s (b.email.getD ""),
        SqlVal.s (b.telefono.getD ""), SqlVal.s (b.cargo.getD ""),
        SqlVal.s (b.mensaje.getD ""), SqlVal.null, SqlVal.null,
        optSql (clientIp r), optSql r.userAgent],
      [SqlVal.s w2.uuid, SqlVal.s (b.nombre.getD ""), SqlVal.s (b.email.getD ""),
        SqlVal.s (b.telefono.getD ""), SqlVal.s (b.cargo.getD ""),
        SqlVal.s (b.mensaje.getD ""), SqlVal.null, SqlVal.null,
        optSql (clientIp r), optSql r.userAgent],
      ?_, ?_, rfl, rfl, ?_⟩
    · simp [formularioV1, hb, hins1, hmail1]
    · simp [formularioV1, hb, hins2, hmail2]
    · simp [formularioV1, hb, hins1, hmail1, optSql]
    · simp [formularioV1, hb, hins2, hmail2, optSql]
    · simp [huuid]

/-- C8 witness: the same concrete body submitted twice, against stores
that assign distinct UUIDs to the two requests. -/
theorem c8_not_idempotent_witness :
    (truthy formA.nombre && truthy formA.email && truthy formA.telefono &&
      truthy formA.cargo) = true ∧
    wOK.insertOk = true ∧ wOK.mailOk = true ∧
    wOK.uuid ≠ wOK2.uuid ∧
    (((formularioV3 wOK envA formA none [rowA] "2024").status = 200 ∧
     (formularioV3 wOK envA formA none
        (formularioV3 wOK envA formA none [rowA] "2024").store "2024").status = 200 ∧
     ∃ r1 r2 : RowP,
       (formularioV3 wOK envA formA none [rowA] "2024").store = [rowA] ++ [r1] ∧
       (formularioV3 wOK envA formA none
          (formularioV3 wOK envA formA none [rowA] "2024").store "2024").store
         = [rowA] ++ [r1, r2] ∧
       r1.id ≠ r2.id) ∧
    ((formularioV1 wOK envA reqA formA none 7).status = 200 ∧
     (formularioV1 wOK2 envA reqA formA none 7).status = 200 ∧
     ∃ a1 a2 : List SqlVal,
       (formularioV1 wOK envA reqA formA none 7).calls.head?
         = some (Call.dbInsert "postulaciones" a1) ∧
       (formularioV1 wOK2 envA reqA formA none 7).calls.head?
         = some (Call.dbInsert "postulaciones" a2) ∧
       a1.head? = some (SqlVal.s wOK.uuid) ∧
       a2.head? = some (SqlVal.s wOK2.uuid) ∧
       a1.head? ≠ a2.head?)) :=
  ⟨by decide, rfl, rfl, by decide,
   c8_not_idempotent wOK wOK wOK2 envA reqA formA [rowA] "2024" 7
     (by decide) rfl rfl rfl rfl rfl rfl (by decide)⟩

end CasaKumis
